import Mathlib

/-!
Shallow embedding of the lovedarts browser auth flow:
the Supabase client wrapper (`src/supabase.ts`), the `AuthService` and
`ProfileService` gateways, and the login/signup form controllers.
Provider (SDK) behaviour is an explicit parameter: every remote call is
modelled as an `Outcome` that either returns structured data or throws.
-/

namespace LoveDarts

/-- Identity token for a JS callback reference (listener identity, `!==`). -/
abbrev Callback := Nat

/-- Error payload carried by a thrown JS exception (its message). -/
abbrev Err := String

/-- A provider user record; the system only reads `id`. -/
structure User where
  id : String
deriving DecidableEq, Repr

/-- A provider session record; the system only reads `user`. -/
structure Session where
  user : Option User
deriving DecidableEq, Repr

/-- Result of awaiting a remote SDK call: it either resolves with data or
rejects/throws with an error. -/
inductive Outcome (α : Type) where
  | ok (v : α)
  | thrown (e : Err)
deriving DecidableEq, Repr

/-- `needle` occurs as a contiguous sublist of the second argument
(JS `String.prototype.includes`). -/
def listHasSub (needle : List Char) : List Char → Bool
  | [] => needle.isEmpty
  | c :: t => needle.isPrefixOf (c :: t) || listHasSub needle t

/-- `hay.includes(needle)` on strings. -/
def strContains (hay needle : String) : Bool :=
  listHasSub needle.toList hay.toList

/-- The error map of `AuthService.formatErrorMessage`, in source (insertion)
order; `Object.entries` enumerates string keys in insertion order. -/
def errorMap : List (String × String) :=
  [("Invalid login credentials", "Invalid email or password"),
   ("Email not confirmed", "Please confirm your email before logging in"),
   ("User already registered", "This email is already registered"),
   ("Password should be at least 6 characters", "Password must be at least 6 characters"),
   ("User not found", "No account found with this email")]

/-- `AuthService.formatErrorMessage`: first table entry whose key is contained
in the raw error wins; otherwise the generic fallback. -/
def formatErrorMessage (rawError : String) : String :=
  match errorMap.find? (fun kv => strContains rawError kv.fst) with
  | some kv => kv.snd
  | none => "Authentication failed. Please try again"

/-- C1: a raw provider error containing "Invalid login credentials" is
normalized to "Invalid email or password" regardless of any other text, and a
raw error containing none of the five table substrings is normalized to
exactly "Authentication failed. Please try again". -/
theorem formatErrorMessage_table (raw : String) :
    (strContains raw "Invalid login credentials" = true →
      formatErrorMessage raw = "Invalid email or password") ∧
    (strContains raw "Invalid login credentials" = false →
     strContains raw "Email not confirmed" = false →
     strContains raw "User already registered" = false →
     strContains raw "Password should be at least 6 characters" = false →
     strContains raw "User not found" = false →
      formatErrorMessage raw = "Authentication failed. Please try again") := by
  constructor
  · intro h
    simp [formatErrorMessage, errorMap, List.find?, h]
  · intro h1 h2 h3 h4 h5
    simp [formatErrorMessage, errorMap, List.find?, h1, h2, h3, h4, h5]

/-- Witness for C1 at concrete raw errors. -/
theorem formatErrorMessage_table_witness :
    formatErrorMessage "AuthApiError: Invalid login credentials (HTTP 400)" =
      "Invalid email or password" ∧
    formatErrorMessage "some totally unknown provider failure" =
      "Authentication failed. Please try again" :=
  ⟨(formatErrorMessage_table _).1 (by decide),
   (formatErrorMessage_table _).2 (by decide) (by decide) (by decide)
     (by decide) (by decide)⟩

/-- `AuthService.onAuthStateChange`: pushes the callback at the end of the
listener list. -/
def register (listeners : List Callback) (cb : Callback) : List Callback :=
  listeners ++ [cb]

/-- The unsubscribe closure returned by `onAuthStateChange`: replaces the
listener list with a fresh array keeping the listeners not identical (`!==`)
to `cb`. -/
def unsubscribe (cb : Callback) (listeners : List Callback) : List Callback :=
  listeners.filter (fun listener => listener ≠ cb)

/-- `AuthService.notifyListeners`: `forEach` over the listener list, each
callback invoked with `user` inside `try { ... } catch { console.error }`.
`beh` gives each callback's behaviour (normal return or throw); the result is
the trace of invocations, paired with the caught error log. -/
def notifyListeners (beh : Callback → Option User → Except Err Unit) :
    List Callback → Option User → List (Callback × Option User) × List Err
  | [], _ => ([], [])
  | cb :: rest, user =>
    let r := notifyListeners beh rest user
    match beh cb user with
    | Except.ok _ => ((cb, user) :: r.fst, r.snd)
    | Except.error e => ((cb, user) :: r.fst, e :: r.snd)

/-- `session?.user || null` inside `initializeAuthStateListener`. -/
def deriveUser : Option Session → Option User
  | none => none
  | some s => s.user

/-- The provider state-change subscription installed by
`initializeAuthStateListener`: derive the user from the event session, then
fan out to all registered listeners. -/
def handleAuthEvent (beh : Callback → Option User → Except Err Unit)
    (listeners : List Callback) (session : Option Session) :
    List (Callback × Option User) × List Err :=
  notifyListeners beh listeners (deriveUser session)

/-- C3: on every provider event, each registered listener is invoked exactly
once and in registration order with the single value `session?.user || null`,
whatever the listeners' throw behaviour `beh` — a throwing listener never
prevents the remaining listeners from being invoked. -/
theorem fanout_invokes_all (beh : Callback → Option User → Except Err Unit)
    (listeners : List Callback) (session : Option Session) :
    (handleAuthEvent beh listeners session).fst
      = listeners.map (fun cb => (cb, deriveUser session)) := by
  unfold handleAuthEvent
  induction listeners with
  | nil => rfl
  | cons cb rest ih =>
    simp only [notifyListeners, List.map]
    cases beh cb (deriveUser session) <;> simpa using ih

/-- C2 counterexample: registering the same callback reference twice and
invoking one unsubscribe handle empties the list (the `filter` removes every
occurrence of the identical reference), so a subsequent event invokes the
callback zero times, not once. -/
theorem double_register_unsubscribe_removes_both :
    unsubscribe 0 (register (register [] 0) 0) = [] ∧
    ((notifyListeners (fun _ _ => Except.ok ())
        (unsubscribe 0 (register (register [] 0) 0)) none).fst.count
      ((0 : Callback), (none : Option User))) = 0 := by
  constructor <;> rfl

/-- C2 amended: invoking an unsubscribe handle removes every registration of
that callback reference (so after registering the same reference twice and
unsubscribing once, no registration remains and subsequent events invoke it
zero times), while registrations of any other reference are untouched. -/
theorem unsubscribe_removes_all_registrations (cb c : Callback)
    (l : List Callback) (beh : Callback → Option User → Except Err Unit)
    (u : Option User) (h : c ≠ cb) :
    (unsubscribe cb l).count cb = 0 ∧
    (unsubscribe cb l).count c = l.count c ∧
    ((notifyListeners beh (unsubscribe cb l) u).fst.count (cb, u)) = 0 := by
  refine ⟨?_, ?_, ?_⟩
  · simp [unsubscribe, List.count_eq_zero, List.mem_filter]
  · unfold unsubscribe
    simp only [ne_eq, decide_not]
    induction l with
    | nil => rfl
    | cons a t ih =>
      by_cases ha : a = cb
      · subst ha
        simp [List.filter_cons, List.count_cons, Ne.symm h, ih]
      · simp [List.filter_cons, ha, List.count_cons, ih]
  · have hmem : cb ∉ unsubscribe cb l := by
      simp [unsubscribe, List.mem_filter]
    generalize unsubscribe cb l = m at hmem
    induction m with
    | nil => rfl
    | cons a t ih =>
      have ha : a ≠ cb := fun hh => hmem (hh ▸ List.mem_cons_self a t)
      have ht : cb ∉ t := fun hh => hmem (List.mem_cons_of_mem a hh)
      simp only [notifyListeners]
      cases beh a u <;>
        simp [List.count_cons, ih ht, Prod.ext_iff, ha]

/-- Witness for the amended C2 at a concrete registry. -/
theorem unsubscribe_removes_all_registrations_witness :
    (1 : Callback) ≠ 0 ∧
    ((unsubscribe 0 [0, 1, 0]).count 0 = 0 ∧
     (unsubscribe 0 [0, 1, 0]).count 1 = [0, 1, 0].count 1 ∧
     ((notifyListeners (fun _ _ => Except.ok ())
         (unsubscribe 0 [0, 1, 0]) none).fst.count
       ((0 : Callback), (none : Option User))) = 0) :=
  ⟨by decide,
   unsubscribe_removes_all_registrations 0 1 [0, 1, 0]
     (fun _ _ => Except.ok ()) none (by decide)⟩

/-- Effect a callback may perform during its own invocation: invoking the
unsubscribe handle of some callback reference (or doing nothing). -/
def applyAction : Option Callback → List Callback → List Callback
  | none, reg => reg
  | some cb, reg => unsubscribe cb reg

/-- Fan-out with re-entrant unsubscription: `forEach` iterates the array
captured when the fan-out began (unsubscription swaps the field to a *new*
filtered array, never mutating the iterated one), while the registry field
evolves under the actions the invoked callbacks perform. Returns the
invocation trace and the registry left for subsequent events. -/
def fanOutFrom (acts : Callback → Option Callback) :
    List Callback → Option User → List Callback →
    List (Callback × Option User) × List Callback
  | [], _, reg => ([], reg)
  | cb :: rest, u, reg =>
    let r := fanOutFrom acts rest u (applyAction (acts cb) reg)
    ((cb, u) :: r.fst, r.snd)

/-- One provider event processed against registry `reg`: the snapshot iterated
is the registry as it stood at fan-out start. -/
def fanOut (acts : Callback → Option Callback) (reg : List Callback)
    (u : Option User) : List (Callback × Option User) × List Callback :=
  fanOutFrom acts reg u reg

/-- Once a reference is absent from the registry, the remaining fan-out steps
(each either a no-op or a `filter`) never re-introduce it. -/
theorem fanOutFrom_not_mem (acts : Callback → Option Callback)
    (snapshot : List Callback) (u : Option User) (reg : List Callback)
    (cb : Callback) (h : cb ∉ reg) :
    cb ∉ (fanOutFrom acts snapshot u reg).snd := by
  induction snapshot generalizing reg with
  | nil => exact h
  | cons a rest ih =>
    refine ih _ ?_
    cases ha : acts a with
    | none => simpa [applyAction] using h
    | some b =>
      simp only [applyAction, unsubscribe, List.mem_filter]
      exact fun hc => h hc.1

/-- The invocation trace covers exactly the snapshot iterated, in order,
whatever actions the callbacks perform on the registry. -/
theorem fanOutFrom_trace (acts : Callback → Option Callback)
    (snapshot : List Callback) (u : Option User) (reg : List Callback) :
    (fanOutFrom acts snapshot u reg).fst
      = snapshot.map (fun c => (c, u)) := by
  induction snapshot generalizing reg with
  | nil => rfl
  | cons a rest ih => simp [fanOutFrom, ih]

/-- A callback in the snapshot that unsubscribes itself is absent from the
registry the fan-out leaves behind. -/
theorem fanOutFrom_self_unsub (acts : Callback → Option Callback)
    (snapshot : List Callback) (u : Option User) (reg : List Callback)
    (cb : Callback) (hmem : cb ∈ snapshot) (hself : acts cb = some cb) :
    cb ∉ (fanOutFrom acts snapshot u reg).snd := by
  induction snapshot generalizing reg with
  | nil => cases hmem
  | cons a rest ih =>
    rcases List.mem_cons.mp hmem with rfl | htail
    · refine fanOutFrom_not_mem acts rest u _ cb ?_
      simp [hself, applyAction, unsubscribe, List.mem_filter]
    · exact ih (applyAction (acts a) reg) htail

/-- C10: when an unsubscribe handle is invoked during a fan-out (for example a
listener unsubscribing itself), every listener registered when the fan-out
began is still invoked once, in order, in that same fan-out; the removal is
visible only in the registry used for subsequent events. -/
theorem fanout_snapshot_isolation (acts : Callback → Option Callback)
    (reg : List Callback) (u : Option User) (cb : Callback)
    (hmem : cb ∈ reg) (hself : acts cb = some cb) :
    (fanOut acts reg u).fst = reg.map (fun c => (c, u)) ∧
    cb ∉ (fanOut acts reg u).snd :=
  ⟨fanOutFrom_trace acts reg u reg,
   fanOutFrom_self_unsub acts reg u reg cb hmem hself⟩

/-- Witness for C10: listener 1 unsubscribes itself during the event; it is
still invoked in that fan-out and absent from the registry afterwards. -/
theorem fanout_snapshot_isolation_witness :
    (1 : Callback) ∈ [0, 1, 2] ∧
    ((fanOut (fun c => if c = 1 then some 1 else none) [0, 1, 2] none).fst
        = [0, 1, 2].map (fun c => (c, (none : Option User))) ∧
     (1 : Callback) ∉
       (fanOut (fun c => if c = 1 then some 1 else none) [0, 1, 2] none).snd) :=
  ⟨by decide,
   fanout_snapshot_isolation (fun c => if c = 1 then some 1 else none)
     [0, 1, 2] none 1 (by decide) (by decide)⟩

/-- `AuthResponse` shape returned by every `AuthService` operation. -/
structure AuthResponse where
  success : Bool
  user : Option User := none
  session : Option Session := none
  error : Option String := none
deriving DecidableEq, Repr

/-- The `data` field of a Supabase sign-in / sign-up response. -/
structure AuthData where
  user : Option User
  session : Option Session
deriving DecidableEq, Repr

/-- A resolved Supabase sign-in / sign-up response: `{ data, error }`. -/
structure ProviderAuthResult where
  data : AuthData
  error : Option String
deriving DecidableEq, Repr

/-- A resolved Supabase `signOut` response: `{ error }`. -/
structure SignOutResult where
  error : Option String
deriving DecidableEq, Repr

/-- The `data` field of a resolved `auth.getSession` response. -/
structure GetSessionData where
  session : Option Session
deriving DecidableEq, Repr

/-- The `data` field of a resolved `auth.getUser` response. -/
structure GetUserData where
  user : Option User
deriving DecidableEq, Repr

/-- `AuthService.login`: the `.thrown` branch is the surrounding
`try/catch`; a provider-reported error goes through the normalization
table; success copies the provider fields untransformed. -/
def login (call : Outcome ProviderAuthResult) : AuthResponse :=
  match call with
  | Outcome.thrown _ =>
    { success := false, error := some "An unexpected error occurred during login" }
  | Outcome.ok r =>
    match r.error with
    | some msg => { success := false, error := some (formatErrorMessage msg) }
    | none => { success := true, user := r.data.user, session := r.data.session }

/-- `AuthService.signup`: same shape as `login` with its own catch message. -/
def signup (call : Outcome ProviderAuthResult) : AuthResponse :=
  match call with
  | Outcome.thrown _ =>
    { success := false, error := some "An unexpected error occurred during signup" }
  | Outcome.ok r =>
    match r.error with
    | some msg => { success := false, error := some (formatErrorMessage msg) }
    | none => { success := true, user := r.data.user, session := r.data.session }

/-- `AuthService.logout`: any provider error collapses to the fixed
"Failed to logout"; the catch yields its own message. -/
def logout (call : Outcome SignOutResult) : AuthResponse :=
  match call with
  | Outcome.thrown _ =>
    { success := false, error := some "An unexpected error occurred during logout" }
  | Outcome.ok r =>
    match r.error with
    | some _ => { success := false, error := some "Failed to logout" }
    | none => { success := true }

/-- The body of `AuthService.getSession` before the catch: awaiting a
rejected call rethrows, a resolved call returns `data.session`. -/
def getSessionBody : Outcome GetSessionData → Except Err (Option Session)
  | Outcome.ok data => Except.ok data.session
  | Outcome.thrown e => Except.error e

/-- `AuthService.getSession` with its `try/catch`: any error becomes `null`. -/
def getSession (call : Outcome GetSessionData) : Except Err (Option Session) :=
  match getSessionBody call with
  | Except.ok s => Except.ok s
  | Except.error _ => Except.ok none

/-- The body of `AuthService.getUser` before the catch: `data.user || null`
collapses on `Option`. -/
def getUserBody : Outcome GetUserData → Except Err (Option User)
  | Outcome.ok data => Except.ok data.user
  | Outcome.thrown e => Except.error e

/-- `AuthService.getUser` with its `try/catch`: any error becomes `null`. -/
def getUser (call : Outcome GetUserData) : Except Err (Option User) :=
  match getUserBody call with
  | Except.ok u => Except.ok u
  | Except.error _ => Except.ok none

/-- C4: `getSession` and `getUser` never raise — for every provider behaviour
they return a value, and a thrown/rejected provider call yields `null`;
a resolved call yields exactly the provider's current session/user field
(which is `null` on absence). -/
theorem getSession_getUser_never_raise :
    (∀ call, ∃ v, getSession call = Except.ok v) ∧
    (∀ e, getSession (Outcome.thrown e) = Except.ok none) ∧
    (∀ d, getSession (Outcome.ok d) = Except.ok d.session) ∧
    (∀ call, ∃ v, getUser call = Except.ok v) ∧
    (∀ e, getUser (Outcome.thrown e) = Except.ok none) ∧
    (∀ d, getUser (Outcome.ok d) = Except.ok d.user) := by
  refine ⟨fun call => ?_, fun e => rfl, fun d => rfl,
          fun call => ?_, fun e => rfl, fun d => rfl⟩
  · cases call <;> exact ⟨_, rfl⟩
  · cases call <;> exact ⟨_, rfl⟩

/-- The exclusivity invariant on `AuthResponse`: success with no error, or
failure with a human-readable error message. -/
def exclusiveResult (r : AuthResponse) : Prop :=
  (r.success = true ∧ r.error = none) ∨
  (r.success = false ∧ ∃ m, r.error = some m)

/-- C9: every auth operation returns a result satisfying the exclusivity
invariant for every provider behaviour, the thrown/rejected case included —
none of them propagates an exception (each is total over `Outcome`, the
`.thrown` branch being the gateway catch). -/
theorem auth_ops_exclusive :
    (∀ call, exclusiveResult (login call)) ∧
    (∀ call, exclusiveResult (signup call)) ∧
    (∀ call, exclusiveResult (logout call)) := by
  refine ⟨fun call => ?_, fun call => ?_, fun call => ?_⟩
  · cases call with
    | thrown e => exact Or.inr ⟨rfl, _, rfl⟩
    | ok r =>
      cases hr : r.error with
      | some msg => exact Or.inr ⟨by simp [login, hr], by simp [login, hr]⟩
      | none => exact Or.inl ⟨by simp [login, hr], by simp [login, hr]⟩
  · cases call with
    | thrown e => exact Or.inr ⟨rfl, _, rfl⟩
    | ok r =>
      cases hr : r.error with
      | some msg => exact Or.inr ⟨by simp [signup, hr], by simp [signup, hr]⟩
      | none => exact Or.inl ⟨by simp [signup, hr], by simp [signup, hr]⟩
  · cases call with
    | thrown e => exact Or.inr ⟨rfl, _, rfl⟩
    | ok r =>
      cases hr : r.error with
      | some msg => exact Or.inr ⟨by simp [logout, hr], by simp [logout, hr]⟩
      | none => exact Or.inl ⟨by simp [logout, hr], by simp [logout, hr]⟩

/-- The configured client handle built by `src/supabase.ts`. -/
structure SupabaseClient where
  url : String
  key : String
deriving DecidableEq, Repr

/-- JS truthiness of an environment variable read: `undefined` and the empty
string are falsy. -/
def envTruthy : Option String → Bool
  | none => false
  | some s => !(s == "")

/-- Module initialization of `src/supabase.ts`: throws
"Missing Supabase environment variables" when either value is falsy,
otherwise constructs the client from the two values. -/
def createSupabaseClient (supabaseUrl supabaseKey : Option String) :
    Except Err SupabaseClient :=
  if !(envTruthy supabaseUrl) || !(envTruthy supabaseKey) then
    Except.error "Missing Supabase environment variables"
  else
    Except.ok { url := supabaseUrl.getD "", key := supabaseKey.getD "" }

/-- C8: construction succeeds for every pair of non-empty configuration
values, and fails with the configuration error — producing no client — when
either value is empty or missing. -/
theorem supabase_client_config (u k : String) (url key : Option String)
    (hu : u ≠ "") (hk : k ≠ "")
    (hmiss : envTruthy url = false ∨ envTruthy key = false) :
    createSupabaseClient (some u) (some k) =
      Except.ok { url := u, key := k } ∧
    createSupabaseClient url key =
      Except.error "Missing Supabase environment variables" := by
  constructor
  · simp [createSupabaseClient, envTruthy, hu, hk]
  · rcases hmiss with hm | hm <;> simp [createSupabaseClient, hm]

/-- Witness for C8: a concrete good pair and a concrete missing key. -/
theorem supabase_client_config_witness :
    ("https://example.supabase.co" : String) ≠ "" ∧ ("anon-key" : String) ≠ "" ∧
    (envTruthy (some "https://example.supabase.co") = false ∨
       envTruthy none = false) ∧
    (createSupabaseClient (some "https://example.supabase.co")
        (some "anon-key") =
      Except.ok { url := "https://example.supabase.co", key := "anon-key" } ∧
     createSupabaseClient (some "https://example.supabase.co") none =
      Except.error "Missing Supabase environment variables") :=
  ⟨by decide, by decide, Or.inr (by decide),
   supabase_client_config "https://example.supabase.co" "anon-key"
     (some "https://example.supabase.co") none
     (by decide) (by decide) (Or.inr (by decide))⟩

/-- `ProfileResponse` returned by `ProfileService.createUserProfile`. -/
structure ProfileResponse where
  success : Bool
  error : Option String := none
deriving DecidableEq, Repr

/-- JS `x || d` on an optional string: `undefined` and `""` fall back. -/
def strOr (o : Option String) (d : String) : String :=
  match o with
  | some s => if s = "" then d else s
  | none => d

/-- `String.prototype.trim`: strip whitespace from both ends. -/
def strTrim (s : String) : String :=
  ⟨((s.toList.dropWhile Char.isWhitespace).reverse.dropWhile
      Char.isWhitespace).reverse⟩

/-- `email.includes('@')` for the single-character needle. -/
def strHasChar (s : String) (c : Char) : Bool :=
  s.toList.contains c

/-- Observable outcome of one `handleLogin` run. -/
structure LoginOutcome where
  authCalled : Bool
  errorShown : Option String
  navigated : Bool
  buttonDisabled : Bool
  buttonRestored : Bool
deriving DecidableEq, Repr

/-- The `try` block of `handleLogin` (button already disabled,
`buttonRestored` still false — the `finally` sets it). -/
def loginTryBody (authResult : Outcome AuthResponse) : LoginOutcome :=
  match authResult with
  | Outcome.ok result =>
    if result.success then
      { authCalled := true, errorShown := none, navigated := true,
        buttonDisabled := true, buttonRestored := false }
    else
      { authCalled := true,
        errorShown := some (strOr result.error "Login failed"),
        navigated := false, buttonDisabled := true, buttonRestored := false }
  | Outcome.thrown _ =>
    { authCalled := true,
      errorShown := some "An unexpected error occurred. Please try again.",
      navigated := false, buttonDisabled := true, buttonRestored := false }

/-- `handleLogin` of the login page controller: trimmed email, local
validation short-circuits before any gateway call, then the
`try/catch/finally` around `authService.login`. -/
def handleLogin (emailRaw password : String)
    (authResult : Outcome AuthResponse) : LoginOutcome :=
  let email := strTrim emailRaw
  if email = "" ∨ password = "" then
    { authCalled := false,
      errorShown := some "Please enter both email and password",
      navigated := false, buttonDisabled := false, buttonRestored := false }
  else if !(strHasChar email '@') then
    { authCalled := false,
      errorShown := some "Please enter a valid email address",
      navigated := false, buttonDisabled := false, buttonRestored := false }
  else
    let r := loginTryBody authResult
    { r with buttonRestored := true }

/-- Observable outcome of one `handleSignup` run. -/
structure SignupOutcome where
  authCalled : Bool
  profileCalled : Bool
  errorShown : Option String
  navigated : Bool
  buttonDisabled : Bool
  buttonRestored : Bool
deriving DecidableEq, Repr

/-- The `try` block of `handleSignup`: auth signup first, then the guard on
a present, non-empty user id, then the profile insert, then the redirect. -/
def signupTryBody (authResult : Outcome AuthResponse)
    (profileResult : Outcome ProfileResponse) : SignupOutcome :=
  match authResult with
  | Outcome.thrown _ =>
    { authCalled := true, profileCalled := false,
      errorShown := some "An unexpected error occurred. Please try again.",
      navigated := false, buttonDisabled := true, buttonRestored := false }
  | Outcome.ok r =>
    if !r.success then
      { authCalled := true, profileCalled := false,
        errorShown := some (strOr r.error "Signup failed"),
        navigated := false, buttonDisabled := true, buttonRestored := false }
    else
      match r.user with
      | none =>
        { authCalled := true, profileCalled := false,
          errorShown := some "Failed to create user account",
          navigated := false, buttonDisabled := true, buttonRestored := false }
      | some user =>
        if user.id = "" then
          { authCalled := true, profileCalled := false,
            errorShown := some "Failed to create user account",
            navigated := false, buttonDisabled := true, buttonRestored := false }
        else
          match profileResult with
          | Outcome.thrown _ =>
            { authCalled := true, profileCalled := true,
              errorShown :=
                some "An unexpected error occurred. Please try again.",
              navigated := false, buttonDisabled := true,
              buttonRestored := false }
          | Outcome.ok p =>
            if !p.success then
              { authCalled := true, profileCalled := true,
                errorShown :=
                  some (strOr p.error "Failed to create user profile"),
                navigated := false, buttonDisabled := true,
                buttonRestored := false }
            else
              { authCalled := true, profileCalled := true,
                errorShown := none, navigated := true,
                buttonDisabled := true, buttonRestored := false }

/-- `handleSignup` of the signup page controller: trimmed email and username,
the four local validation rules in source order, then the
`try/catch/finally` around the signup-then-profile sequence. -/
def handleSignup (emailRaw password usernameRaw : String)
    (authResult : Outcome AuthResponse)
    (profileResult : Outcome ProfileResponse) : SignupOutcome :=
  let email := strTrim emailRaw
  let username := strTrim usernameRaw
  if email = "" ∨ password = "" ∨ username = "" then
    { authCalled := false, profileCalled := false,
      errorShown := some "Please fill in all fields",
      navigated := false, buttonDisabled := false, buttonRestored := false }
  else if !(strHasChar email '@') then
    { authCalled := false, profileCalled := false,
      errorShown := some "Please enter a valid email address",
      navigated := false, buttonDisabled := false, buttonRestored := false }
  else if password.length < 6 then
    { authCalled := false, profileCalled := false,
      errorShown := some "Password must be at least 6 characters",
      navigated := false, buttonDisabled := false, buttonRestored := false }
  else if username.length < 3 then
    { authCalled := false, profileCalled := false,
      errorShown := some "Username must be at least 3 characters",
      navigated := false, buttonDisabled := false, buttonRestored := false }
  else
    let r := signupTryBody authResult profileResult
    { r with buttonRestored := true }

/-- Every branch of the login `try` block runs with the button disabled. -/
theorem loginTryBody_disabled (a : Outcome AuthResponse) :
    (loginTryBody a).buttonDisabled = true := by
  cases a with
  | thrown e => rfl
  | ok r =>
    unfold loginTryBody
    by_cases hs : r.success = true <;> simp [hs]

/-- Every branch of the signup `try` block runs with the button disabled. -/
theorem signupTryBody_disabled (a : Outcome AuthResponse)
    (pr : Outcome ProfileResponse) :
    (signupTryBody a pr).buttonDisabled = true := by
  cases a with
  | thrown e => rfl
  | ok r =>
    unfold signupTryBody
    by_cases hs : r.success = true
    · cases hu : r.user with
      | none => simp [hs, hu]
      | some user =>
        by_cases hid : user.id = ""
        · simp [hs, hu, hid]
        · cases pr with
          | thrown e => simp [hs, hu, hid]
          | ok p => by_cases hp : p.success = true <;> simp [hs, hu, hid, hp]
    · simp [hs]

/-- C5 counterexample: on a successful login submission the `finally` block
still re-enables the button after the redirect is issued — the re-enable is
not skipped on the success path. -/
theorem login_success_still_restores_button :
    handleLogin "a@b.com" "secret" (Outcome.ok { success := true }) =
      { authCalled := true, errorShown := none, navigated := true,
        buttonDisabled := true, buttonRestored := true } := by decide

/-- C5 amended: the submit button's re-enable runs in `finally`, hence on
every path that disabled the button — failure, exception, and success alike;
it is omitted only when local validation short-circuits, where the button was
never disabled. On each run, restored equals disabled. -/
theorem button_restore_runs_whenever_disabled (e p un : String)
    (a : Outcome AuthResponse) (pr : Outcome ProfileResponse) :
    (handleLogin e p a).buttonRestored = (handleLogin e p a).buttonDisabled ∧
    (handleSignup e p un a pr).buttonRestored
      = (handleSignup e p un a pr).buttonDisabled := by
  constructor
  · by_cases h1 : strTrim e = "" ∨ p = ""
    · simp [handleLogin, h1]
    · by_cases h2 : strHasChar (strTrim e) '@' = true
      · simp [handleLogin, h1, h2, loginTryBody_disabled]
      · simp [handleLogin, h1, h2]
  · by_cases h1 : strTrim e = "" ∨ p = "" ∨ strTrim un = ""
    · simp [handleSignup, h1]
    · by_cases h2 : strHasChar (strTrim e) '@' = true
      · by_cases h3 : p.length < 6
        · simp [handleSignup, h1, h2, h3]
        · by_cases h4 : (strTrim un).length < 3
          · simp [handleSignup, h1, h2, h3, h4]
          · simp [handleSignup, h1, h2, h3, h4, signupTryBody_disabled]
      · simp [handleSignup, h1, h2]

/-- The profile insert is reached only past a fully successful auth signup
with a present, non-empty user id. -/
theorem signupTryBody_profile_guard (a : Outcome AuthResponse)
    (pr : Outcome ProfileResponse)
    (h : (signupTryBody a pr).profileCalled = true) :
    ∃ r u, a = Outcome.ok r ∧ r.success = true ∧ r.user = some u ∧
      u.id ≠ "" := by
  cases a with
  | thrown e => simp [signupTryBody] at h
  | ok r =>
    by_cases hs : r.success = true
    · cases hu : r.user with
      | none => simp [signupTryBody, hs, hu] at h
      | some user =>
        by_cases hid : user.id = ""
        · simp [signupTryBody, hs, hu, hid] at h
        · exact ⟨r, user, rfl, hs, hu, hid⟩
    · simp [signupTryBody, hs] at h

/-- When the profile insert is reached and reports the fixed failure message,
the `try` block shows exactly that message and does not redirect. -/
theorem signupTryBody_profile_failure (a : Outcome AuthResponse)
    (h : (signupTryBody a (Outcome.ok
        { success := false,
          error := some "Failed to create user profile" })).profileCalled
      = true) :
    (signupTryBody a (Outcome.ok
        { success := false,
          error := some "Failed to create user profile" })).errorShown
        = some "Failed to create user profile" ∧
    (signupTryBody a (Outcome.ok
        { success := false,
          error := some "Failed to create user profile" })).navigated
        = false := by
  obtain ⟨r, user, rfl, hs, hu, hid⟩ := signupTryBody_profile_guard _ _ h
  simp [signupTryBody, hs, hu, hid, strOr]

/-- Past local validation, `handleSignup` is the `try` body with the
`finally` flag set. -/
theorem handleSignup_past_validation (e p un : String)
    (a : Outcome AuthResponse) (pr : Outcome ProfileResponse)
    (h1 : ¬(strTrim e = "" ∨ p = "" ∨ strTrim un = ""))
    (h2 : strHasChar (strTrim e) '@' = true)
    (h3 : ¬p.length < 6) (h4 : ¬(strTrim un).length < 3) :
    handleSignup e p un a pr =
      { (signupTryBody a pr) with buttonRestored := true } := by
  simp [handleSignup, h1, h2, h3, h4]

/-- C6: the profile insert is attempted only after `authService.signup` fully
succeeded with a non-empty user id; and whenever `createUserProfile` reports
the fixed profile failure, the controller shows exactly that error and does
not navigate. -/
theorem signup_profile_sequencing (e p un : String)
    (a : Outcome AuthResponse) (pr : Outcome ProfileResponse) :
    ((handleSignup e p un a pr).profileCalled = true →
      ∃ r u, a = Outcome.ok r ∧ r.success = true ∧ r.user = some u ∧
        u.id ≠ "") ∧
    ((handleSignup e p un a
          (Outcome.ok
            { success := false,
              error := some "Failed to create user profile" })).profileCalled
        = true →
      (handleSignup e p un a
          (Outcome.ok
            { success := false,
              error := some "Failed to create user profile" })).errorShown
          = some "Failed to create user profile" ∧
      (handleSignup e p un a
          (Outcome.ok
            { success := false,
              error := some "Failed to create user profile" })).navigated
          = false) := by
  have hval : ∀ (pr' : Outcome ProfileResponse),
      (handleSignup e p un a pr').profileCalled = true →
      handleSignup e p un a pr' =
        { (signupTryBody a pr') with buttonRestored := true } := by
    intro pr' h
    by_cases h1 : strTrim e = "" ∨ p = "" ∨ strTrim un = ""
    · simp [handleSignup, h1] at h
    · by_cases h2 : strHasChar (strTrim e) '@' = true
      · by_cases h3 : p.length < 6
        · simp [handleSignup, h1, h2, h3] at h
        · by_cases h4 : (strTrim un).length < 3
          · simp [handleSignup, h1, h2, h3, h4] at h
          · exact handleSignup_past_validation e p un a pr' h1 h2 h3 h4
      · simp [handleSignup, h1, h2] at h
  constructor
  · intro h
    have heq := hval pr h
    rw [heq] at h
    exact signupTryBody_profile_guard a pr (by simpa using h)
  · intro h
    have heq := hval _ h
    rw [heq] at h ⊢
    have h' : (signupTryBody a
        (Outcome.ok
          { success := false,
            error := some "Failed to create user profile" })).profileCalled
        = true := by simpa using h
    have := signupTryBody_profile_failure a h'
    simpa using this

/-- Witness for C6: concrete valid inputs, successful auth signup with user
id "u1", failing profile insert. -/
theorem signup_profile_sequencing_witness :
    ((handleSignup "a@b.com" "secret1" "user1"
        (Outcome.ok { success := true, user := some { id := "u1" } })
        (Outcome.ok
          { success := false,
            error := some "Failed to create user profile" })).profileCalled
      = true →
      ∃ r : AuthResponse, ∃ u : User,
        Outcome.ok { success := true, user := some { id := "u1" } }
          = Outcome.ok r ∧ r.success = true ∧ r.user = some u ∧ u.id ≠ "") ∧
    ((handleSignup "a@b.com" "secret1" "user1"
        (Outcome.ok { success := true, user := some { id := "u1" } })
        (Outcome.ok
          { success := false,
            error := some "Failed to create user profile" })).errorShown
        = some "Failed to create user profile" ∧
     (handleSignup "a@b.com" "secret1" "user1"
        (Outcome.ok { success := true, user := some { id := "u1" } })
        (Outcome.ok
          { success := false,
            error := some "Failed to create user profile" })).navigated
        = false) :=
  ⟨(signup_profile_sequencing "a@b.com" "secret1" "user1"
      (Outcome.ok { success := true, user := some { id := "u1" } })
      (Outcome.ok
        { success := false,
          error := some "Failed to create user profile" })).1,
   (signup_profile_sequencing "a@b.com" "secret1" "user1"
      (Outcome.ok { success := true, user := some { id := "u1" } })
      (Outcome.ok
        { success := false,
          error := some "Failed to create user profile" })).2 (by decide)⟩

/-- C7: the signup controller's local validation runs in the fixed order
empty-fields, email-shape, password-length, username-length; the first
failing rule's message is displayed, later rules are not consulted, and no
gateway call (auth or profile) is made when any local rule fails. -/
theorem signup_validation_order (e p un : String)
    (a : Outcome AuthResponse) (pr : Outcome ProfileResponse) :
    (strTrim e = "" ∨ p = "" ∨ strTrim un = "" →
      handleSignup e p un a pr =
        { authCalled := false, profileCalled := false,
          errorShown := some "Please fill in all fields",
          navigated := false, buttonDisabled := false,
          buttonRestored := false }) ∧
    (¬(strTrim e = "" ∨ p = "" ∨ strTrim un = "") →
     strHasChar (strTrim e) '@' = false →
      handleSignup e p un a pr =
        { authCalled := false, profileCalled := false,
          errorShown := some "Please enter a valid email address",
          navigated := false, buttonDisabled := false,
          buttonRestored := false }) ∧
    (¬(strTrim e = "" ∨ p = "" ∨ strTrim un = "") →
     strHasChar (strTrim e) '@' = true →
     p.length < 6 →
      handleSignup e p un a pr =
        { authCalled := false, profileCalled := false,
          errorShown := some "Password must be at least 6 characters",
          navigated := false, buttonDisabled := false,
          buttonRestored := false }) ∧
    (¬(strTrim e = "" ∨ p = "" ∨ strTrim un = "") →
     strHasChar (strTrim e) '@' = true →
     ¬p.length < 6 →
     (strTrim un).length < 3 →
      handleSignup e p un a pr =
        { authCalled := false, profileCalled := false,
          errorShown := some "Username must be at least 3 characters",
          navigated := false, buttonDisabled := false,
          buttonRestored := false }) := by
  refine ⟨fun h1 => ?_, fun h1 h2 => ?_, fun h1 h2 h3 => ?_,
          fun h1 h2 h3 h4 => ?_⟩
  · simp [handleSignup, h1]
  · simp [handleSignup, h1, h2]
  · simp [handleSignup, h1, h2, h3]
  · simp [handleSignup, h1, h2, h3, h4]

/-- Witness for C7: each of the four rules at a concrete submission — in
particular password "abc" is rejected with the password-length message and
email "not-an-email" with the email-shape message, both before any gateway
call. -/
theorem signup_validation_order_witness :
    (handleSignup "" "x" "y"
        (Outcome.ok { success := true }) (Outcome.ok { success := true }) =
      { authCalled := false, profileCalled := false,
        errorShown := some "Please fill in all fields",
        navigated := false, buttonDisabled := false,
        buttonRestored := false }) ∧
    (handleSignup "not-an-email" "abc" "ab"
        (Outcome.ok { success := true }) (Outcome.ok { success := true }) =
      { authCalled := false, profileCalled := false,
        errorShown := some "Please enter a valid email address",
        navigated := false, buttonDisabled := false,
        buttonRestored := false }) ∧
    (handleSignup "a@b.com" "abc" "ab"
        (Outcome.ok { success := true }) (Outcome.ok { success := true }) =
      { authCalled := false, profileCalled := false,
        errorShown := some "Password must be at least 6 characters",
        navigated := false, buttonDisabled := false,
        buttonRestored := false }) ∧
    (handleSignup "a@b.com" "abcdef" "ab"
        (Outcome.ok { success := true }) (Outcome.ok { success := true }) =
      { authCalled := false, profileCalled := false,
        errorShown := some "Username must be at least 3 characters",
        navigated := false, buttonDisabled := false,
        buttonRestored := false }) :=
  ⟨(signup_validation_order "" "x" "y"
      (Outcome.ok { success := true }) (Outcome.ok { success := true })).1
      (by decide),
   (signup_validation_order "not-an-email" "abc" "ab"
      (Outcome.ok { success := true }) (Outcome.ok { success := true })).2.1
      (by decide) (by decide),
   (signup_validation_order "a@b.com" "abc" "ab"
      (Outcome.ok { success := true }) (Outcome.ok { success := true })).2.2.1
      (by decide) (by decide) (by decide),
   (signup_validation_order "a@b.com" "abcdef" "ab"
      (Outcome.ok { success := true })
      (Outcome.ok { success := true })).2.2.2
      (by decide) (by decide) (by decide) (by decide)⟩

end LoveDarts
